import Mathlib

/-!
Shallow embedding of `src/src/modules/note/note.service.ts` (NoteService of
the mind-reminder repository) and proofs about its five operations.

The document store is modelled as in-memory lists of documents for the two
collections `Note` and `Channel`; `findOne` / `updateOne` / `deleteOne`
operate on the first document, in natural order, matching an equality
filter, exactly as the MongoDB driver does for the queries this service
issues. Each service method is split into its `...Body` (the code inside
the `try` block) and the boundary wrapper (the `catch` clause that re-throws
every error as HTTP 500 with the original message).
-/

namespace NoteService

/-- HTTP status codes from `@nestjs/common` `HttpStatus` used by the service. -/
def OK : Nat := 200

def CREATED : Nat := 201

def NO_CONTENT : Nat := 204

def NOT_FOUND : Nat := 404

def INTERNAL_SERVER_ERROR : Nat := 500

/-- A thrown `HttpException(message, status)`. -/
structure HttpException where
  message : String
  status : Nat
  deriving DecidableEq, Repr

/-- A document of the `Note` collection. Modelled from the spec: the schema
file is not under src/; spec section 3 fixes the fields: identifier,
`content`, `tags`, `channel` (reference to a Channel by id), `user` (owner
identifier), `status` (enumerated state, not otherwise specified, hence an
arbitrary optional string here). -/
structure NoteDoc where
  _id : String
  content : String
  tags : List String
  channel : String
  user : String
  status : Option String
  deriving DecidableEq, Repr

/-- A document of the `Channel` collection. Modelled from the spec: the schema
file is not under src/; spec section 3 fixes the fields: identifier, `name`,
`type`, `isDefault`, `user`, `deletedAt` (soft-delete marker, `none` = active). -/
structure ChannelDoc where
  _id : String
  name : String
  type : String
  isDefault : Bool
  user : String
  deletedAt : Option String
  deriving DecidableEq, Repr

/-- The state of the document store: the two collections the service touches. -/
structure DB where
  notes : List NoteDoc
  channels : List ChannelDoc
  deriving DecidableEq, Repr

/-- `deleteOne`: remove the first document matching the filter; result is the
new collection together with `deletedCount` (1 if a document matched, else 0). -/
def deleteOne (p : α → Bool) : List α → List α × Nat
  | [] => ([], 0)
  | x :: xs =>
    if p x then (xs, 1)
    else
      let r := deleteOne p xs
      (x :: r.1, r.2)

/-- `updateOne`: apply `f` to the first document matching the filter; result is
the new collection, `matchedCount` and `modifiedCount` (1 only when the
matched document actually changed, as MongoDB reports it). -/
def updateOne [DecidableEq α] (p : α → Bool) (f : α → α) :
    List α → List α × Nat × Nat
  | [] => ([], 0, 0)
  | x :: xs =>
    if p x then (f x :: xs, 1, if f x = x then 0 else 1)
    else
      let r := updateOne p f xs
      (x :: r.1, r.2.1, r.2.2)

/-- The filter `\x7b _id: id, user: userId \x7d` used by `getNote`,
`updateNote` and `deleteNote` against the Note collection. -/
def noteFilter (id userId : String) (n : NoteDoc) : Bool :=
  n._id == id && n.user == userId

/-- The filter `\x7b isDefault: true, user: userId, deletedAt: null \x7d` used
by `createNote` against the Channel collection. -/
def defaultChannelFilter (userId : String) (c : ChannelDoc) : Bool :=
  c.isDefault && c.user == userId && c.deletedAt == none

/-- The filter `\x7b _id: cid \x7d` used by the cascade deletion in
`deleteNote` and by `populate` in `getNote` against the Channel collection. -/
def channelIdFilter (cid : String) (c : ChannelDoc) : Bool :=
  c._id == cid

/-- Modelled from the spec: the Note schema (file not under src/) has exactly
the fields listed in spec section 3 — identifier, content, tags, channel,
`user`, status. It has no `userId` path, so reading that path of any Note
document yields nothing. -/
def NoteDoc.userIdPath (_ : NoteDoc) : Option String := none

/-- The count query `countDocuments(\x7b userId \x7d)` issued by `getNotes`:
it filters on a `userId` path, which Note documents do not have, so an
equality filter against it matches no document (MongoDB semantics: a missing
path does not equal a string value). -/
def countDocumentsByUserIdPath (notes : List NoteDoc) (userId : String) : Nat :=
  (notes.filter (fun n => n.userIdPath == some userId)).length

/-- JavaScript truthiness test on an optional string field:
`!payload.channelId` holds when the field is absent or the empty string. -/
def falsyStr : Option String → Bool
  | none => true
  | some s => s == ""

/-- `CreateNoteDto`: `channelId` optional, `content`, `tags`. -/
structure CreateNoteDto where
  channelId : Option String
  content : String
  tags : List String
  deriving DecidableEq, Repr

/-- Modelled from the spec: `UpdateNoteDto` (file not under src/) carries the
mutable content fields, each optional; per spec section 4.1 the update touches
only the fields present in the payload. -/
structure UpdateNoteDto where
  content : Option String
  tags : Option (List String)
  deriving DecidableEq, Repr

/-- The `$set: payload` merge of `updateNote`: overwrite exactly the fields
present in the payload. -/
def applySet (payload : UpdateNoteDto) (n : NoteDoc) : NoteDoc :=
  { n with
    content := payload.content.getD n.content
    tags := payload.tags.getD n.tags }

/-- The response envelope `ResponseType<T> = \x7b data, statusCode \x7d`. -/
structure ResponseType (α : Type) where
  data : α
  statusCode : Nat
  deriving DecidableEq, Repr

/-- `CreateNoteResponseDto`: the id of the newly created note. -/
structure CreateNoteResponseDto where
  id : String
  deriving DecidableEq, Repr

/-- The embedded channel object produced by `populate(\x7b path: channel,
select: name type \x7d)`: only `name` and `type` are exposed. -/
structure ChannelRef where
  name : String
  type : String
  deriving DecidableEq, Repr

/-- The `data` object `getNote` returns: `\x7b id, content, tags, channel \x7d`
(the return statement at lines 85-93 of the source builds exactly these four
fields; `status`, though selected by the query, is not among them). -/
structure GetNoteResponseData where
  id : String
  content : String
  tags : List String
  channel : Option ChannelRef
  deriving DecidableEq, Repr

/-- The lean document produced by
`findOne.select(-_id id content tags channel status).populate(...)` in
`getNote`: the selected fields, with the channel reference resolved. -/
structure NoteLean where
  id : String
  content : String
  tags : List String
  channel : Option ChannelRef
  status : Option String
  deriving DecidableEq, Repr

/-- A page element of `getNotes`:
`select(-_id id content tags status)` (channel intentionally omitted). -/
structure NoteListItem where
  id : String
  content : String
  tags : List String
  status : Option String
  deriving DecidableEq, Repr

/-- Modelled from the spec: `PageMetaDto` (file not under src/) carries the
pagination metadata; the claims only constrain its total record count, so only
`totalRecord` is modelled here. -/
structure PageMetaDto where
  totalRecord : Nat
  deriving DecidableEq, Repr

/-- `PageDto`: the page of projected notes together with its metadata. -/
structure PageDto where
  data : List NoteListItem
  meta : PageMetaDto
  deriving DecidableEq, Repr

/-- `GetNotesQueryDto`: `skip` (offset) and `limit` (page size). -/
structure GetNotesQueryDto where
  skip : Nat
  limit : Nat
  deriving DecidableEq, Repr

/-- `UpdateNoteResponseDto`: id and the two counts of `updateOne`. -/
structure UpdateNoteResponseDto where
  id : String
  matchedCount : Nat
  modifiedCount : Nat
  deriving DecidableEq, Repr

/-- `DeleteNoteResponseDto`: id and the deleted count. -/
structure DeleteNoteResponseDto where
  id : String
  deletedCount : Nat
  deriving DecidableEq, Repr

/-- The `catch` clause shared by all five methods: any error thrown inside the
`try` block is re-thrown as
`new HttpException(error.message, HttpStatus.INTERNAL_SERVER_ERROR)`. -/
def wrapHttp : Except HttpException α → Except HttpException α
  | Except.ok v => Except.ok v
  | Except.error e =>
    Except.error { message := e.message, status := INTERNAL_SERVER_ERROR }

/-- Body of `createNote` (the `try` block, lines 36-61). `newId` is the
identifier the store assigns to the inserted document. -/
def createNoteBody (payload : CreateNoteDto) (userId : String) (newId : String)
    (db : DB) :
    Except HttpException (ResponseType CreateNoteResponseDto × DB) := do
  let channelId ←
    if falsyStr payload.channelId then
      match db.channels.find? (defaultChannelFilter userId) with
      | none =>
        Except.error
          { message := "You need to connect to at least one channel",
            status := NOT_FOUND }
      | some channel => Except.ok channel._id
    else
      Except.ok (payload.channelId.getD "")
  let newNote : NoteDoc :=
    { _id := newId, content := payload.content, tags := payload.tags,
      channel := channelId, user := userId, status := none }
  Except.ok
    ({ data := { id := newId }, statusCode := CREATED },
     { db with notes := db.notes ++ [newNote] })

/-- `createNote` with its boundary `catch` (lines 62-64). -/
def createNote (payload : CreateNoteDto) (userId : String) (newId : String)
    (db : DB) :
    Except HttpException (ResponseType CreateNoteResponseDto × DB) :=
  wrapHttp (createNoteBody payload userId newId db)

/-- `populate(\x7b path: channel, select: name type \x7d)`: resolve the channel
reference to its document and keep only `name` and `type`; an unresolvable
reference populates to null (`none`). -/
def populateChannel (channels : List ChannelDoc) (cid : String) :
    Option ChannelRef :=
  (channels.find? (channelIdFilter cid)).map
    (fun c => { name := c.name, type := c.type })

/-- The query of `getNote` (lines 72-79): findOne with the ownership filter,
the field selection and the channel population. -/
def getNoteQuery (db : DB) (id userId : String) : Option NoteLean :=
  (db.notes.find? (noteFilter id userId)).map
    (fun n =>
      { id := n._id, content := n.content, tags := n.tags,
        channel := populateChannel db.channels n.channel, status := n.status })

/-- Body of `getNote` (the `try` block, lines 71-93). -/
def getNoteBody (id userId : String) (db : DB) :
    Except HttpException (ResponseType GetNoteResponseData) :=
  match getNoteQuery db id userId with
  | none => Except.error { message := "Note Not Found", status := NOT_FOUND }
  | some note =>
    Except.ok
      { data :=
          { id := note.id, content := note.content, tags := note.tags,
            channel := note.channel },
        statusCode := OK }

/-- `getNote` with its boundary `catch` (lines 94-96). -/
def getNote (id userId : String) (db : DB) :
    Except HttpException (ResponseType GetNoteResponseData) :=
  wrapHttp (getNoteBody id userId db)

/-- MongoDB `cursor.limit(l)`: `limit(0)` means no limit. -/
def applyLimit (l : Nat) (xs : List α) : List α :=
  if l == 0 then xs else xs.take l

/-- The page query of `getNotes` (lines 104-109): find with the ownership
filter `\x7b user: userId \x7d`, project, then skip and limit. -/
def getNotesPage (db : DB) (userId : String) (skip limit : Nat) :
    List NoteListItem :=
  (applyLimit limit ((db.notes.filter (fun n => n.user == userId)).drop skip)).map
    (fun n =>
      { id := n._id, content := n.content, tags := n.tags, status := n.status })

/-- Body of `getNotes` (the `try` block, lines 103-125). -/
def getNotesBody (query : GetNotesQueryDto) (userId : String) (db : DB) :
    Except HttpException (ResponseType PageDto) :=
  let notes := getNotesPage db userId query.skip query.limit
  let totalRecord := countDocumentsByUserIdPath db.notes userId
  Except.ok
    { data := { data := notes, meta := { totalRecord := totalRecord } },
      statusCode := OK }

/-- `getNotes` with its boundary `catch` (lines 126-128). -/
def getNotes (query : GetNotesQueryDto) (userId : String) (db : DB) :
    Except HttpException (ResponseType PageDto) :=
  wrapHttp (getNotesBody query userId db)

/-- Body of `updateNote` (the `try` block, lines 136-151). -/
def updateNoteBody (id userId : String) (payload : UpdateNoteDto) (db : DB) :
    Except HttpException (ResponseType UpdateNoteResponseDto × DB) :=
  let result := updateOne (noteFilter id userId) (applySet payload) db.notes
  Except.ok
    ({ data :=
         { id := id, matchedCount := result.2.1, modifiedCount := result.2.2 },
       statusCode := OK },
     { db with notes := result.1 })

/-- `updateNote` with its boundary `catch` (lines 152-154). -/
def updateNote (id userId : String) (payload : UpdateNoteDto) (db : DB) :
    Except HttpException (ResponseType UpdateNoteResponseDto × DB) :=
  wrapHttp (updateNoteBody id userId payload db)

/-- Body of `deleteNote` (the `try` block, lines 161-179): findOne first;
not-found throws; otherwise the two deletions run (notes by
`\x7b _id, user \x7d`, channels by `\x7b _id: note.channel \x7d` only) and the
response is built from the Note deletion result alone. -/
def deleteNoteBody (id userId : String) (db : DB) :
    Except HttpException (ResponseType DeleteNoteResponseDto × DB) :=
  match db.notes.find? (noteFilter id userId) with
  | none => Except.error { message := "Note Not Found", status := NOT_FOUND }
  | some note =>
    let noteResult := deleteOne (noteFilter id userId) db.notes
    let channelResult := deleteOne (channelIdFilter note.channel) db.channels
    Except.ok
      ({ data := { id := id, deletedCount := noteResult.2 },
         statusCode := NO_CONTENT },
       { notes := noteResult.1, channels := channelResult.1 })

/-- `deleteNote` with its boundary `catch` (lines 180-182). -/
def deleteNote (id userId : String) (db : DB) :
    Except HttpException (ResponseType DeleteNoteResponseDto × DB) :=
  wrapHttp (deleteNoteBody id userId db)

/-! ### General lemmas about the store primitives -/

theorem find?_eq_of_unique {p : α → Bool} {l : List α} {a : α}
    (ha : a ∈ l) (hpa : p a = true) (huniq : ∀ b ∈ l, p b = true → b = a) :
    l.find? p = some a := by
  induction l with
  | nil => cases ha
  | cons x xs ih =>
    by_cases hx : p x = true
    · have hxa : x = a := huniq x (List.mem_cons_self x xs) hx
      simp [List.find?, hx, hxa, hpa]
    · have hax : a ≠ x := by
        intro h
        exact hx (h ▸ hpa)
      have ha' : a ∈ xs := by
        rcases List.mem_cons.mp ha with h | h
        · exact absurd h hax
        · exact h
      have := ih ha' (fun b hb hpb => huniq b (List.mem_cons_of_mem x hb) hpb)
      simp only [Bool.not_eq_true] at hx
      simp [List.find?, hx, this]

theorem filter_eq_singleton_of_unique {p : α → Bool} {l : List α} {a : α}
    (hnd : l.Nodup) (ha : a ∈ l) (hpa : p a = true)
    (huniq : ∀ b ∈ l, p b = true → b = a) :
    l.filter p = [a] := by
  induction l with
  | nil => cases ha
  | cons x xs ih =>
    rcases List.nodup_cons.mp hnd with ⟨hxnotin, hndxs⟩
    by_cases hx : p x = true
    · have hxa : x = a := huniq x (List.mem_cons_self x xs) hx
      have hfilxs : xs.filter p = [] := by
        rw [List.filter_eq_nil_iff]
        intro b hb hpb
        have hba : b = a := huniq b (List.mem_cons_of_mem x hb) hpb
        exact hxnotin (hxa ▸ hba ▸ hb)
      simp [List.filter_cons, hx, hxa, hfilxs, hpa]
    · have hax : a ≠ x := by
        intro h
        exact hx (h ▸ hpa)
      have ha' : a ∈ xs := by
        rcases List.mem_cons.mp ha with h | h
        · exact absurd h hax
        · exact h
      have := ih hndxs ha' (fun b hb hpb => huniq b (List.mem_cons_of_mem x hb) hpb)
      simp only [Bool.not_eq_true] at hx
      simp [List.filter_cons, hx, this]

theorem deleteOne_of_filter_le_one {p : α → Bool} {l : List α}
    (h : (l.filter p).length ≤ 1) :
    deleteOne p l = (l.filter (fun a => !(p a)), (l.filter p).length) := by
  induction l with
  | nil => rfl
  | cons x xs ih =>
    by_cases hx : p x = true
    · have hfilxs : xs.filter p = [] := by
        have hlen : (xs.filter p).length = 0 := by
          rw [List.filter_cons, if_pos hx, List.length_cons] at h
          omega
        exact List.length_eq_zero.mp hlen
      have hxsall : ∀ b ∈ xs, ¬ p b = true := List.filter_eq_nil_iff.mp hfilxs
      have hxs : xs.filter (fun a => !(p a)) = xs := by
        rw [List.filter_eq_self]
        intro b hb
        simp [hxsall b hb]
      simp [deleteOne, hx, List.filter_cons, hxs, hfilxs]
    · have h' : (xs.filter p).length ≤ 1 := by
        rw [List.filter_cons, if_neg hx] at h
        exact h
      simp only [Bool.not_eq_true] at hx
      simp [deleteOne, hx, List.filter_cons, ih h']

theorem deleteOne_fst_filter {p q : α → Bool}
    (hpq : ∀ a, p a = true → q a = false) :
    ∀ l : List α, ((deleteOne p l).1.filter q) = l.filter q := by
  intro l
  induction l with
  | nil => rfl
  | cons x xs ih =>
    by_cases hx : p x = true
    · have := hpq x hx
      simp [deleteOne, hx, List.filter_cons, this]
    · simp only [Bool.not_eq_true] at hx
      by_cases hq : q x = true
      · simp [deleteOne, hx, List.filter_cons, hq, ih]
      · simp only [Bool.not_eq_true] at hq
        simp [deleteOne, hx, List.filter_cons, hq, ih]

theorem updateOne_no_match [DecidableEq α] {p : α → Bool} {f : α → α}
    {l : List α} (h : ∀ a ∈ l, p a = false) :
    updateOne p f l = (l, 0, 0) := by
  induction l with
  | nil => rfl
  | cons x xs ih =>
    have hx := h x (List.mem_cons_self x xs)
    have := ih (fun a ha => h a (List.mem_cons_of_mem x ha))
    simp [updateOne, hx, this]

theorem updateOne_fst_filter [DecidableEq α] {p q : α → Bool} {f : α → α}
    (h1 : ∀ a, p a = true → q a = false)
    (h2 : ∀ a, q (f a) = q a) :
    ∀ l : List α, ((updateOne p f l).1.filter q) = l.filter q := by
  intro l
  induction l with
  | nil => rfl
  | cons x xs ih =>
    by_cases hx : p x = true
    · have hqx := h1 x hx
      have hqfx : q (f x) = false := (h2 x).trans hqx
      simp [updateOne, hx, List.filter_cons, hqx, hqfx]
    · simp only [Bool.not_eq_true] at hx
      by_cases hq : q x = true
      · simp [updateOne, hx, List.filter_cons, hq, ih]
      · simp only [Bool.not_eq_true] at hq
        simp [updateOne, hx, List.filter_cons, hq, ih]

/-- A note matched by the ownership filter belongs to the querying user. -/
theorem user_of_noteFilter {id userId : String} {n : NoteDoc}
    (h : noteFilter id userId n = true) : n.user = userId := by
  have := (Bool.and_eq_true _ _).mp h
  exact eq_of_beq this.2

/-- A note matched by the ownership filter carries the queried id. -/
theorem id_of_noteFilter {id userId : String} {n : NoteDoc}
    (h : noteFilter id userId n = true) : n._id = id := by
  have := (Bool.and_eq_true _ _).mp h
  exact eq_of_beq this.1

/-- The field-merge of `updateNote` never changes the owner of a note. -/
theorem applySet_user (payload : UpdateNoteDto) (n : NoteDoc) :
    (applySet payload n).user = n.user := rfl

/-! ### Claim theorems -/

/-- C2: for every one of the five operations, any error raised inside the
operation body — the deliberately raised NotFound errors included — is caught
at the method boundary and re-thrown with HTTP status 500
(INTERNAL_SERVER_ERROR), preserving only the original message text and losing
the original status code. -/
theorem C2_error_collapse :
    (∀ (payload : CreateNoteDto) (userId newId : String) (db : DB)
        (e : HttpException),
      createNoteBody payload userId newId db = Except.error e →
      createNote payload userId newId db =
        Except.error { message := e.message, status := INTERNAL_SERVER_ERROR }) ∧
    (∀ (id userId : String) (db : DB) (e : HttpException),
      getNoteBody id userId db = Except.error e →
      getNote id userId db =
        Except.error { message := e.message, status := INTERNAL_SERVER_ERROR }) ∧
    (∀ (query : GetNotesQueryDto) (userId : String) (db : DB)
        (e : HttpException),
      getNotesBody query userId db = Except.error e →
      getNotes query userId db =
        Except.error { message := e.message, status := INTERNAL_SERVER_ERROR }) ∧
    (∀ (id userId : String) (payload : UpdateNoteDto) (db : DB)
        (e : HttpException),
      updateNoteBody id userId payload db = Except.error e →
      updateNote id userId payload db =
        Except.error { message := e.message, status := INTERNAL_SERVER_ERROR }) ∧
    (∀ (id userId : String) (db : DB) (e : HttpException),
      deleteNoteBody id userId db = Except.error e →
      deleteNote id userId db =
        Except.error { message := e.message, status := INTERNAL_SERVER_ERROR }) := by
  refine ⟨?_, ?_, ?_, ?_, ?_⟩
  · intro payload userId newId db e h
    unfold createNote
    rw [h]
    rfl
  · intro id userId db e h
    unfold getNote
    rw [h]
    rfl
  · intro query userId db e h
    unfold getNotes
    rw [h]
    rfl
  · intro id userId payload db e h
    unfold updateNote
    rw [h]
    rfl
  · intro id userId db e h
    unfold deleteNote
    rw [h]
    rfl

/-- Witness for C2: on an empty store, the NotFound raised inside
`createNote` (no default channel), `getNote` and `deleteNote` (no such note)
each surfaces at the boundary as status 500 with the original message. -/
theorem C2_error_collapse_witness :
    createNote { channelId := none, content := "a", tags := [] } "u1" "n1"
        { notes := [], channels := [] } =
      Except.error
        { message := "You need to connect to at least one channel",
          status := INTERNAL_SERVER_ERROR } ∧
    getNote "n1" "u1" { notes := [], channels := [] } =
      Except.error
        { message := "Note Not Found", status := INTERNAL_SERVER_ERROR } ∧
    deleteNote "n1" "u1" { notes := [], channels := [] } =
      Except.error
        { message := "Note Not Found", status := INTERNAL_SERVER_ERROR } :=
  ⟨C2_error_collapse.1 { channelId := none, content := "a", tags := [] }
      "u1" "n1" { notes := [], channels := [] }
      { message := "You need to connect to at least one channel",
        status := NOT_FOUND } rfl,
   C2_error_collapse.2.1 "n1" "u1" { notes := [], channels := [] }
      { message := "Note Not Found", status := NOT_FOUND } rfl,
   C2_error_collapse.2.2.2.2 "n1" "u1" { notes := [], channels := [] }
      { message := "Note Not Found", status := NOT_FOUND } rfl⟩

/-- C5: when `payload.channelId` is absent and no channel matches
`isDefault = true, user = userId, deletedAt = null`, `createNote` fails with
the NotFound-kind error raised inside the body and inserts no note (an error
result carries no store state, so nothing is written); at the method boundary
the error is re-wrapped to 500 per C2. -/
theorem C5_createNote_no_default_channel (payload : CreateNoteDto)
    (userId newId : String) (db : DB)
    (hch : payload.channelId = none)
    (hnone : ∀ c ∈ db.channels, defaultChannelFilter userId c = false) :
    createNoteBody payload userId newId db =
      Except.error
        { message := "You need to connect to at least one channel",
          status := NOT_FOUND } := by
  have hfind : db.channels.find? (defaultChannelFilter userId) = none :=
    List.find?_eq_none.mpr (fun c hc => by simp [hnone c hc])
  unfold createNoteBody
  rw [hch]
  simp only [falsyStr, hfind]
  rfl

/-- Witness for C5: a store whose only channel is non-default. -/
theorem C5_createNote_no_default_channel_witness :
    createNoteBody { channelId := none, content := "x", tags := [] } "u1" "n1"
      { notes := [],
        channels :=
          [{ _id := "c1", name := "m", type := "email", isDefault := false,
             user := "u1", deletedAt := none }] } =
      Except.error
        { message := "You need to connect to at least one channel",
          status := NOT_FOUND } :=
  C5_createNote_no_default_channel
    { channelId := none, content := "x", tags := [] } "u1" "n1"
    { notes := [],
      channels :=
        [{ _id := "c1", name := "m", type := "email", isDefault := false,
           user := "u1", deletedAt := none }] }
    rfl (by decide)

/-- C6: when `payload.channelId` is absent and exactly one channel matches
`isDefault = true, user = userId, deletedAt = null`, `createNote` inserts a
new Note whose channel is that channel, whose content, tags and user come from
the payload and the caller identity, and returns the new id with status
CREATED (201). -/
theorem C6_createNote_default_channel (payload : CreateNoteDto)
    (userId newId : String) (db : DB) (c : ChannelDoc)
    (hch : payload.channelId = none)
    (hc : c ∈ db.channels) (hdef : defaultChannelFilter userId c = true)
    (huniq : ∀ d ∈ db.channels, defaultChannelFilter userId d = true → d = c) :
    createNote payload userId newId db =
      Except.ok
        ({ data := { id := newId }, statusCode := CREATED },
         { db with
           notes := db.notes ++
             [{ _id := newId, content := payload.content,
                tags := payload.tags, channel := c._id, user := userId,
                status := none }] }) := by
  have hfind : db.channels.find? (defaultChannelFilter userId) = some c :=
    find?_eq_of_unique hc hdef huniq
  unfold createNote createNoteBody
  rw [hch]
  simp only [falsyStr, hfind]
  rfl

/-- Witness for C6: one default active channel; the created note references
it. -/
theorem C6_createNote_default_channel_witness :
    createNote { channelId := none, content := "buy milk", tags := ["home"] }
      "u1" "n1"
      { notes := [],
        channels :=
          [{ _id := "c1", name := "m", type := "email", isDefault := true,
             user := "u1", deletedAt := none }] } =
      Except.ok
        ({ data := { id := "n1" }, statusCode := CREATED },
         { notes :=
             [{ _id := "n1", content := "buy milk", tags := ["home"],
                channel := "c1", user := "u1", status := none }],
           channels :=
             [{ _id := "c1", name := "m", type := "email", isDefault := true,
                user := "u1", deletedAt := none }] }) :=
  C6_createNote_default_channel
    { channelId := none, content := "buy milk", tags := ["home"] } "u1" "n1"
    { notes := [],
      channels :=
        [{ _id := "c1", name := "m", type := "email", isDefault := true,
           user := "u1", deletedAt := none }] }
    { _id := "c1", name := "m", type := "email", isDefault := true,
      user := "u1", deletedAt := none }
    rfl (by decide) (by decide) (by decide)

/-- C8: when no note matches `_id = id, user = userId`, `updateNote` returns
success with status OK, `matchedCount = 0`, `modifiedCount = 0`, leaves the
store unchanged, and does not throw (no existence pre-check is performed). -/
theorem C8_updateNote_no_match (id userId : String) (payload : UpdateNoteDto)
    (db : DB) (h : ∀ m ∈ db.notes, noteFilter id userId m = false) :
    updateNote id userId payload db =
      Except.ok
        ({ data := { id := id, matchedCount := 0, modifiedCount := 0 },
           statusCode := OK }, db) := by
  have hupd := updateOne_no_match
    (p := noteFilter id userId) (f := applySet payload) h
  unfold updateNote updateNoteBody
  rw [hupd]
  rfl

/-- Witness for C8: the store holds only a note of another user; the update
for user u1 matches nothing and returns counts 0 with the store unchanged. -/
theorem C8_updateNote_no_match_witness :
    updateNote "n1" "u1" { content := some "y", tags := none }
      { notes :=
          [{ _id := "n1", content := "a", tags := [], channel := "c1",
             user := "u2", status := none }],
        channels := [] } =
      Except.ok
        ({ data := { id := "n1", matchedCount := 0, modifiedCount := 0 },
           statusCode := OK },
         { notes :=
             [{ _id := "n1", content := "a", tags := [], channel := "c1",
                user := "u2", status := none }],
           channels := [] }) :=
  C8_updateNote_no_match "n1" "u1" { content := some "y", tags := none }
    { notes :=
        [{ _id := "n1", content := "a", tags := [], channel := "c1",
           user := "u2", status := none }],
      channels := [] }
    (by decide)

/-- C9: when `payload.channelId` is present (truthy), `createNote` inserts the
note with that `channelId` as its channel reference with no check at all on
the Channel collection — the conclusion holds for every `db.channels`
whatsoever, and the default-channel lookup with its NotFound failure is
skipped. -/
theorem C9_createNote_channelId_unchecked (payload : CreateNoteDto)
    (userId newId s : String) (db : DB)
    (hch : payload.channelId = some s) (hs : s ≠ "") :
    createNote payload userId newId db =
      Except.ok
        ({ data := { id := newId }, statusCode := CREATED },
         { db with
           notes := db.notes ++
             [{ _id := newId, content := payload.content,
                tags := payload.tags, channel := s, user := userId,
                status := none }] }) := by
  have hfal : falsyStr payload.channelId = false := by
    rw [hch]
    simp [falsyStr, hs]
  unfold createNote createNoteBody
  rw [hch] at hfal ⊢
  simp only [hfal]
  rfl

/-- Witness for C9: the referenced channel "c9" exists nowhere (the Channel
collection is empty), yet the insert succeeds and references it. -/
theorem C9_createNote_channelId_unchecked_witness :
    createNote { channelId := some "c9", content := "x", tags := ["t"] }
      "u1" "n1" { notes := [], channels := [] } =
      Except.ok
        ({ data := { id := "n1" }, statusCode := CREATED },
         { notes :=
             [{ _id := "n1", content := "x", tags := ["t"], channel := "c9",
                user := "u1", status := none }],
           channels := [] }) :=
  C9_createNote_channelId_unchecked
    { channelId := some "c9", content := "x", tags := ["t"] } "u1" "n1" "c9"
    { notes := [], channels := [] } rfl (by decide)

/-- C10: the `deletedCount` returned by `deleteNote` comes solely from the
Note-collection deletion result; the Channel-collection deletion result is
discarded, so the returned response (data and status) is identical for any
two stores agreeing on the Note collection, whatever happens on the Channel
collection. -/
theorem C10_deletedCount_from_note_result (id userId : String) (db1 db2 : DB)
    (h : db1.notes = db2.notes) :
    Except.map Prod.fst (deleteNoteBody id userId db1) =
      Except.map Prod.fst (deleteNoteBody id userId db2) ∧
    (∀ res dbr, deleteNoteBody id userId db1 = Except.ok (res, dbr) →
      res.data.deletedCount = (deleteOne (noteFilter id userId) db1.notes).2) := by
  constructor
  · unfold deleteNoteBody
    rw [h]
    cases db2.notes.find? (noteFilter id userId) <;> rfl
  · intro res dbr hok
    unfold deleteNoteBody at hok
    cases hf : db1.notes.find? (noteFilter id userId) with
    | none =>
      rw [hf] at hok
      cases hok
    | some note =>
      rw [hf] at hok
      simp only [Except.ok.injEq, Prod.mk.injEq] at hok
      rw [← hok.1]

/-- Witness for C10: two stores with the same single note, one holding the
referenced channel and one not; the responses coincide although only the first
deletion also removes a channel. -/
theorem C10_deletedCount_from_note_result_witness :
    Except.map Prod.fst (deleteNoteBody "n1" "u1"
      { notes :=
          [{ _id := "n1", content := "a", tags := [], channel := "c1",
             user := "u1", status := none }],
        channels :=
          [{ _id := "c1", name := "m", type := "email", isDefault := true,
             user := "u1", deletedAt := none }] }) =
    Except.map Prod.fst (deleteNoteBody "n1" "u1"
      { notes :=
          [{ _id := "n1", content := "a", tags := [], channel := "c1",
             user := "u1", status := none }],
        channels := [] }) :=
  (C10_deletedCount_from_note_result "n1" "u1"
    { notes :=
        [{ _id := "n1", content := "a", tags := [], channel := "c1",
           user := "u1", status := none }],
      channels :=
        [{ _id := "c1", name := "m", type := "email", isDefault := true,
           user := "u1", deletedAt := none }] }
    { notes :=
        [{ _id := "n1", content := "a", tags := [], channel := "c1",
           user := "u1", status := none }],
      channels := [] } rfl).1

/-- C1 counterexample: the claim also states that EVERY query these
operations issue against the Note collection filters on `user = userId`; the
total-count query of `getNotes` (line 111, `countDocuments(\x7b userId \x7d)`)
does not. On a store holding one note owned by "u2", the count query invoked
with userId = "u2" returns 0, while a query filtering `user = "u2"` matches
that note — so the issued count query is not the ownership filter. -/
theorem C1_count_query_not_user_scoped :
    countDocumentsByUserIdPath
      [{ _id := "n1", content := "a", tags := [], channel := "c1",
         user := "u2", status := none }] "u2" = 0 ∧
    (([{ _id := "n1", content := "a", tags := [], channel := "c1",
         user := "u2", status := none }] : List NoteDoc).filter
      (fun m => m.user == "u2")).length = 1 := by
  constructor <;> rfl

/-- C1 (amended): for users u1 ≠ u2, a note owned by u1 is never matched by
the `findOne` of `getNote`/`updateNote`/`deleteNote` invoked with u2, never
selected by the page filter of `getNotes` invoked with u2, and survives
unchanged every `updateNote`/`deleteNote` invoked with u2 (the sub-list of
notes not owned by u2 is untouched); the note-returning and note-matching
queries all filter on `user = userId` — the sole exception, the total-count
query of `getNotes`, returns a count, never a note. -/
theorem C1_ownership_isolation (db : DB) (u1 u2 : String) (hne : u1 ≠ u2)
    (n : NoteDoc) (hn : n.user = u1) :
    (∀ id m, db.notes.find? (noteFilter id u2) = some m → m ≠ n) ∧
    n ∉ db.notes.filter (fun m => m.user == u2) ∧
    (∀ id payload res db2,
      updateNoteBody id u2 payload db = Except.ok (res, db2) →
      db2.notes.filter (fun m => !(m.user == u2)) =
        db.notes.filter (fun m => !(m.user == u2)) ∧
      (n ∈ db.notes → n ∈ db2.notes)) ∧
    (∀ id res db2, deleteNoteBody id u2 db = Except.ok (res, db2) →
      db2.notes.filter (fun m => !(m.user == u2)) =
        db.notes.filter (fun m => !(m.user == u2)) ∧
      (n ∈ db.notes → n ∈ db2.notes)) := by
  have hnu2 : (n.user == u2) = false := by
    rw [hn]
    exact beq_eq_false_iff_ne.mpr hne
  have hmempres : ∀ db2 : DB,
      db2.notes.filter (fun m => !(m.user == u2)) =
        db.notes.filter (fun m => !(m.user == u2)) →
      n ∈ db.notes → n ∈ db2.notes := by
    intro db2 hfil hnmem
    have h1 : n ∈ db.notes.filter (fun m => !(m.user == u2)) :=
      List.mem_filter.mpr ⟨hnmem, by simp [hnu2]⟩
    rw [← hfil] at h1
    exact (List.mem_filter.mp h1).1
  refine ⟨?_, ?_, ?_, ?_⟩
  · intro id m hm heq
    have hp := List.find?_some hm
    have hmu : m.user = u2 := user_of_noteFilter hp
    rw [heq, hn] at hmu
    exact hne hmu
  · intro hmem
    have := (List.mem_filter.mp hmem).2
    rw [hnu2] at this
    cases this
  · intro id payload res db2 hok
    unfold updateNoteBody at hok
    simp only [Except.ok.injEq, Prod.mk.injEq] at hok
    have hfil : db2.notes.filter (fun m => !(m.user == u2)) =
        db.notes.filter (fun m => !(m.user == u2)) := by
      rw [← hok.2]
      exact updateOne_fst_filter
        (fun a ha => by simp [user_of_noteFilter ha])
        (fun a => by rw [applySet_user]) db.notes
    exact ⟨hfil, hmempres db2 hfil⟩
  · intro id res db2 hok
    unfold deleteNoteBody at hok
    cases hf : db.notes.find? (noteFilter id u2) with
    | none =>
      rw [hf] at hok
      cases hok
    | some note =>
      rw [hf] at hok
      simp only [Except.ok.injEq, Prod.mk.injEq] at hok
      have hfil : db2.notes.filter (fun m => !(m.user == u2)) =
          db.notes.filter (fun m => !(m.user == u2)) := by
        rw [← hok.2]
        exact deleteOne_fst_filter
          (fun a ha => by simp [user_of_noteFilter ha]) db.notes
      exact ⟨hfil, hmempres db2 hfil⟩

/-- Witness for C1: with one note owned by "u1" in the store, the page filter
of `getNotes` run as "u2" selects nothing. -/
theorem C1_ownership_isolation_witness :
    ({ _id := "n1", content := "a", tags := [], channel := "c1",
       user := "u1", status := none } : NoteDoc) ∉
      (({ notes :=
            [{ _id := "n1", content := "a", tags := [], channel := "c1",
               user := "u1", status := none }],
          channels := [] } : DB)).notes.filter (fun m => m.user == "u2") :=
  (C1_ownership_isolation
    { notes :=
        [{ _id := "n1", content := "a", tags := [], channel := "c1",
           user := "u1", status := none }],
      channels := [] }
    "u1" "u2" (by decide)
    { _id := "n1", content := "a", tags := [], channel := "c1",
      user := "u1", status := none } rfl).2.1

/-- C3 (code bug, line 111): the page query of `getNotes` is scoped by
`user = userId` and the page size is right, but the total count is computed by
`countDocuments(\x7b userId \x7d)` — a filter on a `userId` path the Note
schema does not have — instead of `\x7b user: userId \x7d`. For a user owning
exactly one note, with skip 0 and limit 10, the page holds that one note while
`totalRecord` is 0 instead of 1. -/
theorem C3_totalRecord_not_scoped :
    getNotesBody { skip := 0, limit := 10 } "u1"
      { notes :=
          [{ _id := "n1", content := "a", tags := [], channel := "c1",
             user := "u1", status := none }],
        channels := [] } =
      Except.ok
        { data :=
            { data :=
                [{ id := "n1", content := "a", tags := [], status := none }],
              meta := { totalRecord := 0 } },
          statusCode := OK } ∧
    (([{ _id := "n1", content := "a", tags := [], channel := "c1",
         user := "u1", status := none }] : List NoteDoc).filter
      (fun m => m.user == "u1")).length = 1 := by
  constructor <;> rfl

/-- C4: deleting a note the caller owns removes exactly that note from the
Note collection and exactly the channel its `channel` field references from
the Channel collection — the channel deletion filtered only by `_id`, with no
condition on the owner of `c` — returns `deletedCount = 1` with status
NO_CONTENT (204), and a subsequent `getNote` for the same id fails with the
NotFound raised in its body (re-wrapped to 500 at the boundary per C2).
The id-uniqueness hypotheses are the `_id` index invariant of the store. -/
theorem C4_deleteNote_cascade (db : DB) (id userId : String) (n : NoteDoc)
    (c : ChannelDoc)
    (hmem : n ∈ db.notes) (hid : n._id = id) (huser : n.user = userId)
    (hnd : (db.notes.map NoteDoc._id).Nodup)
    (hc : c ∈ db.channels) (hcid : c._id = n.channel)
    (hcnd : (db.channels.map ChannelDoc._id).Nodup) :
    deleteNote id userId db =
      Except.ok
        ({ data := { id := id, deletedCount := 1 }, statusCode := NO_CONTENT },
         { notes := db.notes.filter (fun m => !(noteFilter id userId m)),
           channels :=
             db.channels.filter (fun d => !(channelIdFilter n.channel d)) }) ∧
    n ∉ db.notes.filter (fun m => !(noteFilter id userId m)) ∧
    (∀ m ∈ db.notes, m ≠ n →
      m ∈ db.notes.filter (fun m => !(noteFilter id userId m))) ∧
    c ∉ db.channels.filter (fun d => !(channelIdFilter n.channel d)) ∧
    (∀ d ∈ db.channels, d ≠ c →
      d ∈ db.channels.filter (fun d => !(channelIdFilter n.channel d))) ∧
    getNoteBody id userId
      { notes := db.notes.filter (fun m => !(noteFilter id userId m)),
        channels :=
          db.channels.filter (fun d => !(channelIdFilter n.channel d)) } =
      Except.error { message := "Note Not Found", status := NOT_FOUND } := by
  have hpn : noteFilter id userId n = true := by
    simp [noteFilter, hid, huser]
  have huniq : ∀ b ∈ db.notes, noteFilter id userId b = true → b = n := by
    intro b hb hpb
    exact List.inj_on_of_nodup_map hnd hb hmem
      (by rw [id_of_noteFilter hpb, hid])
  have hfind : db.notes.find? (noteFilter id userId) = some n :=
    find?_eq_of_unique hmem hpn huniq
  have hfil1 : db.notes.filter (noteFilter id userId) = [n] :=
    filter_eq_singleton_of_unique (List.Nodup.of_map _ hnd) hmem hpn huniq
  have hdel : deleteOne (noteFilter id userId) db.notes =
      (db.notes.filter (fun m => !(noteFilter id userId m)), 1) := by
    have h1 := deleteOne_of_filter_le_one
      (p := noteFilter id userId) (l := db.notes) (by simp [hfil1])
    rw [hfil1] at h1
    exact h1
  have hqc : channelIdFilter n.channel c = true := by
    simp [channelIdFilter, hcid]
  have hcuniq : ∀ d ∈ db.channels,
      channelIdFilter n.channel d = true → d = c := by
    intro d hd hpd
    refine List.inj_on_of_nodup_map hcnd hd hc ?_
    have hdid : d._id = n.channel := eq_of_beq hpd
    rw [hdid, hcid]
  have hcfil1 : db.channels.filter (channelIdFilter n.channel) = [c] :=
    filter_eq_singleton_of_unique (List.Nodup.of_map _ hcnd) hc hqc hcuniq
  have hcdel : deleteOne (channelIdFilter n.channel) db.channels =
      (db.channels.filter (fun d => !(channelIdFilter n.channel d)), 1) := by
    have h1 := deleteOne_of_filter_le_one
      (p := channelIdFilter n.channel) (l := db.channels) (by simp [hcfil1])
    rw [hcfil1] at h1
    exact h1
  refine ⟨?_, ?_, ?_, ?_, ?_, ?_⟩
  · unfold deleteNote deleteNoteBody
    rw [hfind]
    simp only [hdel, hcdel]
    rfl
  · intro hmm
    have := (List.mem_filter.mp hmm).2
    rw [hpn] at this
    cases this
  · intro m hm hmn
    have hpm : noteFilter id userId m = false := by
      cases hpm : noteFilter id userId m with
      | true => exact absurd (huniq m hm hpm) hmn
      | false => rfl
    exact List.mem_filter.mpr ⟨hm, by simp [hpm]⟩
  · intro hmm
    have := (List.mem_filter.mp hmm).2
    rw [hqc] at this
    cases this
  · intro d hd hdc
    have hpd : channelIdFilter n.channel d = false := by
      cases hpd : channelIdFilter n.channel d with
      | true => exact absurd (hcuniq d hd hpd) hdc
      | false => rfl
    exact List.mem_filter.mpr ⟨hd, by simp [hpd]⟩
  · have hnone : (db.notes.filter
        (fun m => !(noteFilter id userId m))).find? (noteFilter id userId) =
        none := by
      rw [List.find?_eq_none]
      intro m hm
      have := (List.mem_filter.mp hm).2
      simp only [Bool.not_eq_true'] at this
      simp [this]
    simp [getNoteBody, getNoteQuery, hnone]

/-- Witness for C4: a one-note, one-channel store; deleting the note also
deletes the channel and leaves an empty store. -/
theorem C4_deleteNote_cascade_witness :
    deleteNote "n1" "u1"
      { notes :=
          [{ _id := "n1", content := "a", tags := [], channel := "c1",
             user := "u1", status := none }],
        channels :=
          [{ _id := "c1", name := "m", type := "email", isDefault := true,
             user := "u1", deletedAt := none }] } =
      Except.ok
        ({ data := { id := "n1", deletedCount := 1 },
           statusCode := NO_CONTENT },
         { notes := [], channels := [] }) :=
  (C4_deleteNote_cascade
    { notes :=
        [{ _id := "n1", content := "a", tags := [], channel := "c1",
           user := "u1", status := none }],
      channels :=
        [{ _id := "c1", name := "m", type := "email", isDefault := true,
           user := "u1", deletedAt := none }] }
    "n1" "u1"
    { _id := "n1", content := "a", tags := [], channel := "c1",
      user := "u1", status := none }
    { _id := "c1", name := "m", type := "email", isDefault := true,
      user := "u1", deletedAt := none }
    (by decide) rfl rfl (by decide) (by decide) rfl (by decide)).1

/-- C7 counterexample: the claim states that `getNote` returns a projection of
the fields including `status`; but the return statement (lines 85-93) builds
`data` from `id`, `content`, `tags` and `channel` only, so two stores whose
note differs only in `status` produce identical `getNote` responses. -/
theorem C7_status_dropped_from_response :
    getNoteBody "n1" "u1"
      { notes :=
          [{ _id := "n1", content := "a", tags := [], channel := "c1",
             user := "u1", status := some "pinned" }],
        channels := [] } =
    getNoteBody "n1" "u1"
      { notes :=
          [{ _id := "n1", content := "a", tags := [], channel := "c1",
             user := "u1", status := some "archived" }],
        channels := [] } ∧
    (some "pinned" : Option String) ≠ some "archived" :=
  ⟨rfl, by decide⟩

/-- C7 (amended): for the note matching `_id = id, user = userId`, the QUERY
of `getNote` selects \x7bid, content, tags, channel, status\x7d and resolves
the channel reference to an embedded object exposing only \x7bname, type\x7d,
but the returned data carries only \x7bid, content, tags, channel\x7d —
`status` is selected and then dropped; the response status is OK; when no
note matches, the body fails with NotFound (re-wrapped to 500 at the
boundary per C2). The id-uniqueness hypothesis is the `_id` index invariant
of the store. -/
theorem C7_getNote_result_shape (db : DB) (id userId : String)
    (hnd : (db.notes.map NoteDoc._id).Nodup) :
    (∀ n ∈ db.notes, noteFilter id userId n = true →
      getNoteQuery db id userId =
        some { id := n._id, content := n.content, tags := n.tags,
               channel := populateChannel db.channels n.channel,
               status := n.status } ∧
      getNoteBody id userId db =
        Except.ok
          { data :=
              { id := n._id, content := n.content, tags := n.tags,
                channel := populateChannel db.channels n.channel },
            statusCode := OK }) ∧
    ((∀ m ∈ db.notes, noteFilter id userId m = false) →
      getNoteBody id userId db =
        Except.error { message := "Note Not Found", status := NOT_FOUND }) := by
  constructor
  · intro n hn hpn
    have huniq : ∀ b ∈ db.notes, noteFilter id userId b = true → b = n := by
      intro b hb hpb
      exact List.inj_on_of_nodup_map hnd hb hn
        (by rw [id_of_noteFilter hpb, id_of_noteFilter hpn])
    have hfind : db.notes.find? (noteFilter id userId) = some n :=
      find?_eq_of_unique hn hpn huniq
    constructor
    · unfold getNoteQuery
      rw [hfind]
      rfl
    · unfold getNoteBody getNoteQuery
      rw [hfind]
      rfl
  · intro hall
    have hfind : db.notes.find? (noteFilter id userId) = none := by
      rw [List.find?_eq_none]
      intro m hm
      simp [hall m hm]
    unfold getNoteBody getNoteQuery
    rw [hfind]
    rfl

/-- Witness for C7: the spec scenario — the fetched note resolves its channel
to the embedded \x7bname, type\x7d object, and the response data has exactly
the four fields. -/
theorem C7_getNote_result_shape_witness :
    getNoteBody "n1" "u1"
      { notes :=
          [{ _id := "n1", content := "buy milk", tags := ["home"],
             channel := "c1", user := "u1", status := some "active" }],
        channels :=
          [{ _id := "c1", name := "m", type := "email", isDefault := true,
             user := "u1", deletedAt := none }] } =
      Except.ok
        { data :=
            { id := "n1", content := "buy milk", tags := ["home"],
              channel := some { name := "m", type := "email" } },
          statusCode := OK } :=
  ((C7_getNote_result_shape
    { notes :=
        [{ _id := "n1", content := "buy milk", tags := ["home"],
           channel := "c1", user := "u1", status := some "active" }],
      channels :=
        [{ _id := "c1", name := "m", type := "email", isDefault := true,
           user := "u1", deletedAt := none }] }
    "n1" "u1" (by decide)).1
    { _id := "n1", content := "buy milk", tags := ["home"],
      channel := "c1", user := "u1", status := some "active" }
    (by decide) rfl).2

end NoteService
